import Mathlib

/-
Verification development for the Matterport lighting pipeline
(`load_add_light.py`): the `.house` file format parser, the per-room
light-placement policy, the light-plan extraction, and the coordinate
alignment (fixed rotation plus bounding-box scale-and-translate).

Modelling conventions:
  * Python floats are modelled as exact rationals (ℚ); the claims are about
    the arithmetic formulas, not binary rounding.
  * `float(...)` / `int(...)` token conversion is modelled by a decimal
    grammar (optional sign, digits, one optional decimal point for floats);
    exponents / inf / nan / underscores are not needed by any claim, which
    only depend on a token either converting or raising `ValueError`.
  * Python's `dict` preserves insertion order, so the `levels` mapping of a
    light plan is modelled as an insertion-ordered association list.
  * A Python statement that raises is modelled with `Except`: the single
    runtime error the alignment code can hit is a division by zero, the
    generic `ZeroDivisionError` (there is no named failure kind in the code).
  * The `house_name` field (derived from the file path, not the file text)
    is outside the parsing core and is omitted from the document model.
-/

/-- A 3-component point/vector with exact rational coordinates. -/
structure Vec3 where
  x : ℚ
  y : ℚ
  z : ℚ
deriving DecidableEq

/-- Numeric value of a list of decimal digit characters. -/
def digitsVal (cs : List Char) : ℕ :=
  cs.foldl (fun a c => a * 10 + (c.toNat - 48)) 0

/-- All characters are decimal digits. -/
def allDigits (cs : List Char) : Bool :=
  cs.all (fun c => c.isDigit)

/-- Python `int(token)`: optional sign followed by a nonempty digit string
(model of the conversion used at the numeric integer field offsets). -/
def pyIntChars (cs : List Char) : Option ℤ :=
  match cs with
  | '+' :: rest =>
      if rest.isEmpty || !(allDigits rest) then none else some (digitsVal rest)
  | '-' :: rest =>
      if rest.isEmpty || !(allDigits rest) then none else some (-(digitsVal rest : ℤ))
  | rest =>
      if rest.isEmpty || !(allDigits rest) then none else some (digitsVal rest)

/-- Unsigned part of Python `float(token)`: digits with at most one decimal
point, not all empty. -/
def pyFracChars (cs : List Char) : Option ℚ :=
  let intPart := cs.takeWhile (fun c => c ≠ '.')
  let rest := cs.dropWhile (fun c => c ≠ '.')
  match rest with
  | [] =>
      if intPart.isEmpty || !(allDigits intPart) then none
      else some (digitsVal intPart)
  | _ :: frac =>
      if frac.contains '.' then none
      else if !(allDigits intPart) || !(allDigits frac) then none
      else if intPart.isEmpty && frac.isEmpty then none
      else some ((digitsVal intPart : ℚ) + (digitsVal frac : ℚ) / (10 ^ frac.length))

/-- Python `float(token)`: optional sign and an unsigned decimal body. -/
def pyFloatChars (cs : List Char) : Option ℚ :=
  match cs with
  | '+' :: rest => pyFracChars rest
  | '-' :: rest => (pyFracChars rest).map (fun q => -q)
  | rest => pyFracChars rest

/-- Python `int(s)` on a whitespace-free token. -/
def pyInt (s : String) : Option ℤ := pyIntChars s.data

/-- Python `float(s)` on a whitespace-free token. -/
def pyFloat (s : String) : Option ℚ := pyFloatChars s.data

/-- Split a character stream at newlines (accumulator holds the current line
reversed); models iterating over the lines of the file. -/
def splitLinesAux : List Char → List Char → List String
  | [], acc => [String.mk acc.reverse]
  | c :: cs, acc =>
      if c = '\n' then String.mk acc.reverse :: splitLinesAux cs []
      else splitLinesAux cs (c :: acc)

/-- The lines of a text, split at newline characters. -/
def splitLines (s : String) : List String := splitLinesAux s.data []

/-- Whitespace tokenization (accumulator holds the current token reversed);
models Python `line.split()`, which drops empty tokens, after `strip()`. -/
def tokenizeAux : List Char → List Char → List String
  | [], acc => if acc.isEmpty then [] else [String.mk acc.reverse]
  | c :: cs, acc =>
      if c.isWhitespace then
        if acc.isEmpty then tokenizeAux cs []
        else String.mk acc.reverse :: tokenizeAux cs []
      else tokenizeAux cs (c :: acc)

/-- The whitespace-separated tokens of a line. -/
def tokenize (s : String) : List String := tokenizeAux s.data []

/-- Header record of a house document (tag `H`):
name@1, num_regions@10, num_levels@12, bbox_min@18-20, bbox_max@21-23. -/
structure Header where
  name : String
  num_regions : ℤ
  num_levels : ℤ
  bbox_min : Vec3
  bbox_max : Vec3
deriving DecidableEq

/-- Level record (tag `L`):
index@1, num_regions@2, label@3, center@4-6, bbox_min@7-9, bbox_max@10-12. -/
structure Level where
  level_index : ℤ
  num_regions : ℤ
  label : String
  center : Vec3
  bbox_min : Vec3
  bbox_max : Vec3
deriving DecidableEq

/-- Region record (tag `R`): index@1, level_index@2, label@5, center@6-8,
bbox_min@9-11, bbox_max@12-14, height@15. -/
structure Region where
  region_index : ℤ
  level_index : ℤ
  label : String
  center : Vec3
  bbox_min : Vec3
  bbox_max : Vec3
  height : ℚ
deriving DecidableEq

/-- The parsed house document: optional header plus levels and regions in
file encounter order (the `house_data` dict of `parse_house_file`). -/
structure HouseData where
  header : Option Header
  levels : List Level
  regions : List Region
deriving DecidableEq

/-- Three float tokens converted into a point; `none` if any conversion
raises `ValueError`. -/
def parseVec3 (a b c : String) : Option Vec3 :=
  match pyFloat a, pyFloat b, pyFloat c with
  | some x, some y, some z => some ⟨x, y, z⟩
  | _, _, _ => none

/-- Outcome of processing one line: a stored record, a silent skip, or a
caught `ValueError` (warning printed, nothing stored). -/
inductive LineResult
  | header (h : Header)
  | level (l : Level)
  | region (r : Region)
  | skip
  | warn
deriving DecidableEq

/-- The `H` branch of the per-line dispatch: a guard `len(parts) >= 24`
(silently skipping short lines), then field conversion at the fixed offsets;
a failed conversion is the caught `ValueError` (warn, store nothing). -/
def parseHeaderLine (parts : List String) : LineResult :=
  if 24 ≤ parts.length then
    match pyInt (parts.getD 10 ""), pyInt (parts.getD 12 ""),
          parseVec3 (parts.getD 18 "") (parts.getD 19 "") (parts.getD 20 ""),
          parseVec3 (parts.getD 21 "") (parts.getD 22 "") (parts.getD 23 "") with
    | some nr, some nl, some bmin, some bmax =>
        .header { name := parts.getD 1 "", num_regions := nr, num_levels := nl,
                  bbox_min := bmin, bbox_max := bmax }
    | _, _, _, _ => .warn
  else .skip

/-- The `L` branch: guard `len(parts) >= 13`, fields at the fixed offsets. -/
def parseLevelLine (parts : List String) : LineResult :=
  if 13 ≤ parts.length then
    match pyInt (parts.getD 1 ""), pyInt (parts.getD 2 ""),
          parseVec3 (parts.getD 4 "") (parts.getD 5 "") (parts.getD 6 ""),
          parseVec3 (parts.getD 7 "") (parts.getD 8 "") (parts.getD 9 ""),
          parseVec3 (parts.getD 10 "") (parts.getD 11 "") (parts.getD 12 "") with
    | some i, some nr, some c, some bmin, some bmax =>
        .level { level_index := i, num_regions := nr, label := parts.getD 3 "",
                 center := c, bbox_min := bmin, bbox_max := bmax }
    | _, _, _, _, _ => .warn
  else .skip

/-- The `R` branch: guard `len(parts) >= 16`, fields at the fixed offsets. -/
def parseRegionLine (parts : List String) : LineResult :=
  if 16 ≤ parts.length then
    match pyInt (parts.getD 1 ""), pyInt (parts.getD 2 ""),
          parseVec3 (parts.getD 6 "") (parts.getD 7 "") (parts.getD 8 ""),
          parseVec3 (parts.getD 9 "") (parts.getD 10 "") (parts.getD 11 ""),
          parseVec3 (parts.getD 12 "") (parts.getD 13 "") (parts.getD 14 ""),
          pyFloat (parts.getD 15 "") with
    | some i, some li, some c, some bmin, some bmax, some h =>
        .region { region_index := i, level_index := li, label := parts.getD 5 "",
                  center := c, bbox_min := bmin, bbox_max := bmax, height := h }
    | _, _, _, _, _, _ => .warn
  else .skip

/-- Per-line dispatch on the first token; blank lines and unrecognized tags
are silently ignored. -/
def processLine (parts : List String) : LineResult :=
  match parts with
  | [] => .skip
  | tag :: _ =>
      if tag = "H" then parseHeaderLine parts
      else if tag = "L" then parseLevelLine parts
      else if tag = "R" then parseRegionLine parts
      else .skip

/-- How one line updates the document under construction: a header record
overwrites the `header` slot, level and region records are appended, and a
skipped or warned line leaves the document unchanged. -/
def docStep (d : HouseData) (line : String) : HouseData :=
  match processLine (tokenize line) with
  | .header h => { d with header := some h }
  | .level l => { d with levels := d.levels ++ [l] }
  | .region r => { d with regions := d.regions ++ [r] }
  | .skip => d
  | .warn => d

/-- Whether a line triggers the caught-`ValueError` warning. -/
def lineWarn (line : String) : Bool :=
  match processLine (tokenize line) with
  | .warn => true
  | _ => false

/-- `parse_house_file` on the text of the file: a fold of `docStep` over the
lines, paired with the 1-based numbers of the lines that produced a warning.
(The Python loop interleaves both effects; each line's contribution is
independent, so document and warnings are expressed as two projections.) -/
def parse_house_file (text : String) : HouseData × List ℕ :=
  let lines := splitLines text
  (lines.foldl docStep { header := none, levels := [], regions := [] },
   ((lines.enum.filter (fun p => lineWarn p.2)).map (fun p => p.1 + 1)))

/-- The 31-entry label-code to room-type table of
`MatterportLightingSystem.__init__`, in source order. -/
def room_type_mapping : List (String × String) :=
  [("a", "bathroom"), ("b", "bedroom"), ("c", "closet"), ("d", "dining_room"),
   ("e", "entryway"), ("f", "family_room"), ("g", "garage"), ("h", "hallway"),
   ("i", "library"), ("j", "laundry_room"), ("k", "kitchen"), ("l", "living_room"),
   ("m", "meeting_room"), ("n", "lounge"), ("o", "office"), ("p", "porch"),
   ("r", "recreation"), ("s", "stairs"), ("t", "toilet"), ("u", "utility_room"),
   ("v", "tv_room"), ("w", "workout"), ("x", "outdoor"), ("y", "balcony"),
   ("z", "other"), ("B", "bar"), ("C", "classroom"), ("D", "dining_booth"),
   ("S", "spa"), ("Z", "junk"), ("-", "unlabeled")]

/-- The room-type to light-intensity table of
`MatterportLightingSystem.__init__`, in source order. -/
def room_intensities : List (String × ℚ) :=
  [("kitchen", 15000), ("bathroom", 10000), ("office", 15000),
   ("dining_room", 15000), ("living_room", 12000), ("family_room", 12000),
   ("bedroom", 8000), ("hallway", 6000), ("stairs", 8000), ("closet", 6000),
   ("garage", 10000), ("laundry_room", 10000), ("utility_room", 10000),
   ("library", 10000), ("meeting_room", 10000), ("lounge", 10000),
   ("recreation", 12000), ("bar", 8000), ("spa", 6000), ("entryway", 10000),
   ("other", 10000), ("unlabeled", 8000)]

/-- Python `dict.get(key, default)` on an insertion-ordered table. -/
def dictGet {β : Type} (m : List (String × β)) (k : String) (dflt : β) : β :=
  match m.find? (fun p => p.1 == k) with
  | some p => p.2
  | none => dflt

/-- `calculate_light_position`: region center x,y, with the light height
chosen by the source's priority chain over the label and the room height
`bbox_max.z - bbox_min.z`. -/
def calculate_light_position (region : Region) : Vec3 :=
  let floor_z := region.bbox_min.z
  let ceiling_z := region.bbox_max.z
  let room_height := ceiling_z - floor_z
  let light_height :=
    if region.label = "s" then floor_z + room_height * 0.4
    else if region.label = "c" ∨ region.label = "t" then
      floor_z + min 2.2 (room_height * 0.8)
    else if room_height > 4.0 then floor_z + room_height * 0.6
    else floor_z + min 2.7 (room_height * 0.8)
  { x := region.center.x, y := region.center.y, z := light_height }

/-- One light record (the `light_info` dict): `original_position` is absent
(`none`) until the rotation stage stores the pre-rotation value. -/
structure LightInfo where
  region_index : ℤ
  room_label : String
  room_type : String
  position : Vec3
  intensity : ℚ
  room_center : Vec3
  room_height : ℚ
  floor_z : ℚ
  ceiling_z : ℚ
  original_position : Option Vec3
deriving DecidableEq

/-- One per-level group of lights (a value of the `levels` dict). -/
structure LevelGroup where
  level_name : String
  lights : List LightInfo
deriving DecidableEq

/-- The light plan (the `light_positions` dict): insertion-ordered `levels`
mapping, running `total_lights` count, and the flat `all_positions` list. -/
structure LightPlan where
  total_lights : ℕ
  levels : List (ℤ × LevelGroup)
  all_positions : List LightInfo
deriving DecidableEq

/-- The `light_info` dict built by `extract_light_positions` for one
non-junk region (independent of the plan accumulated so far). -/
def mkLightInfo (region : Region) : LightInfo :=
  { region_index := region.region_index
    room_label := region.label
    room_type := dictGet room_type_mapping region.label "other"
    position := calculate_light_position region
    intensity := dictGet room_intensities
      (dictGet room_type_mapping region.label "other") 1000
    room_center := region.center
    room_height := region.height
    floor_z := region.bbox_min.z
    ceiling_z := region.bbox_max.z
    original_position := none }

/-- Whether the insertion-ordered `levels` mapping already has a key. -/
def hasKey (levels : List (ℤ × LevelGroup)) (k : ℤ) : Bool :=
  levels.any (fun p => p.1 == k)

/-- Update the group stored at a key of the `levels` mapping in place. -/
def updateLevels (levels : List (ℤ × LevelGroup)) (k : ℤ)
    (f : LevelGroup → LevelGroup) : List (ℤ × LevelGroup) :=
  levels.map (fun p => if p.1 = k then (p.1, f p.2) else p)

/-- Processing of one region by `extract_light_positions`: skip junk labels;
otherwise create the level group on first use (synthesized name), resolve
the level display name by first-match scan of the document levels, and
append the new light to the group, to `all_positions`, and to the count. -/
def extractStep (houseLevels : List Level) (plan : LightPlan)
    (region : Region) : LightPlan :=
  if region.label = "Z" then plan
  else
    let idx := region.level_index
    let levels0 :=
      if hasKey plan.levels idx then plan.levels
      else plan.levels ++ [(idx, { level_name := "Level_" ++ toString idx, lights := [] })]
    let levels1 :=
      match houseLevels.find? (fun l => l.level_index == idx) with
      | some l => updateLevels levels0 idx (fun g => { g with level_name := l.label })
      | none => levels0
    let li := mkLightInfo region
    { total_lights := plan.total_lights + 1
      levels := updateLevels levels1 idx (fun g => { g with lights := g.lights ++ [li] })
      all_positions := plan.all_positions ++ [li] }

/-- `extract_light_positions`: fold over the document regions in order. -/
def extract_light_positions (hd : HouseData) : LightPlan :=
  hd.regions.foldl (extractStep hd.levels) { total_lights := 0, levels := [], all_positions := [] }

/-- The hardcoded basis change used by `apply_matterport_rotation` and (on
the header bounds) by `scale_light_positions`: (x, y, z) to (x, z, -y). -/
def pyRot (v : Vec3) : Vec3 := { x := v.x, y := v.z, z := -v.y }

/-- The in-loop body of `apply_matterport_rotation` on one light: rotate the
position and record the pre-rotation value as `original_position`. -/
def rotateLight (li : LightInfo) : LightInfo :=
  { li with position := pyRot li.position, original_position := some li.position }

/-- `apply_matterport_rotation` as a function of the plan value it returns:
every light of every level group is rotated and `all_positions` is rebuilt
as the concatenation of the level groups (the aliasing of the input object,
a shallow `dict.copy()`, is modelled separately by the store-based model). -/
def apply_matterport_rotation (plan : LightPlan) : LightPlan :=
  let levels := plan.levels.map
    (fun p => (p.1, { p.2 with lights := p.2.lights.map rotateLight }))
  { plan with levels := levels,
              all_positions := (levels.map (fun p => p.2.lights)).flatten }

/-- The runtime error the alignment code can raise: Python's generic
`ZeroDivisionError` from `isaac_size[i] / rotated_house_size[i]`. -/
inductive PyErr
  | zeroDivision
deriving DecidableEq

/-- Destination bounding box of the loaded mesh (the `bbox_min` / `bbox_max`
entries of `mesh_transform`, the only ones `scale_light_positions` reads). -/
structure BBox where
  bbox_min : Vec3
  bbox_max : Vec3
deriving DecidableEq

/-- The in-loop body of `scale_light_positions` on one (already rotated)
light: subtract the rotated house center, scale per axis, add the mesh
center. `original_position` is left as it is. -/
def scaleLight (rc ic sf : Vec3) (li : LightInfo) : LightInfo :=
  { li with position :=
      { x := (li.position.x - rc.x) * sf.x + ic.x
        y := (li.position.y - rc.y) * sf.y + ic.y
        z := (li.position.z - rc.z) * sf.z + ic.z } }

/-- `scale_light_positions`: rotated house center from the header bounds,
per-axis scale factors from the rotated house size and the mesh size
(computed before the loop, so a zero rotated size raises the generic
`ZeroDivisionError` before any light is touched), then the per-light
remap; `all_positions` is rebuilt from the level groups. -/
def scale_light_positions (plan : LightPlan) (mesh : BBox)
    (header : Header) : Except PyErr LightPlan :=
  let hmin := header.bbox_min
  let hmax := header.bbox_max
  let house_center : Vec3 :=
    { x := (hmax.x + hmin.x) / 2, y := (hmax.y + hmin.y) / 2, z := (hmax.z + hmin.z) / 2 }
  let rotated_house_center : Vec3 :=
    { x := house_center.x, y := house_center.z, z := -house_center.y }
  let imin := mesh.bbox_min
  let imax := mesh.bbox_max
  let isaac_center : Vec3 :=
    { x := (imax.x + imin.x) / 2, y := (imax.y + imin.y) / 2, z := (imax.z + imin.z) / 2 }
  let rotated_house_size : Vec3 :=
    { x := hmax.x - hmin.x, y := hmax.z - hmin.z, z := hmax.y - hmin.y }
  let isaac_size : Vec3 :=
    { x := imax.x - imin.x, y := imax.y - imin.y, z := imax.z - imin.z }
  if rotated_house_size.x = 0 ∨ rotated_house_size.y = 0 ∨ rotated_house_size.z = 0 then
    Except.error PyErr.zeroDivision
  else
    let sf : Vec3 :=
      { x := isaac_size.x / rotated_house_size.x
        y := isaac_size.y / rotated_house_size.y
        z := isaac_size.z / rotated_house_size.z }
    let levels := plan.levels.map
      (fun p => (p.1, { p.2 with lights := p.2.lights.map (scaleLight rotated_house_center isaac_center sf) }))
    Except.ok { plan with levels := levels,
                          all_positions := (levels.map (fun p => p.2.lights)).flatten }

/-- Spec-side view (for the refinement statement): componentwise midpoint of
the header bounding box after the fixed rotation. -/
def rotatedSourceCenter (header : Header) : Vec3 :=
  let a := pyRot header.bbox_min
  let b := pyRot header.bbox_max
  { x := (a.x + b.x) / 2, y := (a.y + b.y) / 2, z := (a.z + b.z) / 2 }

/-- Spec-side view: componentwise extent of the header bounding box after
the fixed rotation (max minus min of the two rotated corners per axis). -/
def rotatedSourceSize (header : Header) : Vec3 :=
  let a := pyRot header.bbox_min
  let b := pyRot header.bbox_max
  { x := max a.x b.x - min a.x b.x
    y := max a.y b.y - min a.y b.y
    z := max a.z b.z - min a.z b.z }

/-- Spec-side view: componentwise midpoint of the destination bounding box
(no rotation applied). -/
def destCenter (mesh : BBox) : Vec3 :=
  { x := (mesh.bbox_min.x + mesh.bbox_max.x) / 2
    y := (mesh.bbox_min.y + mesh.bbox_max.y) / 2
    z := (mesh.bbox_min.z + mesh.bbox_max.z) / 2 }

/-- Spec-side view: componentwise extent of the destination bounding box. -/
def destSize (mesh : BBox) : Vec3 :=
  { x := mesh.bbox_max.x - mesh.bbox_min.x
    y := mesh.bbox_max.y - mesh.bbox_min.y
    z := mesh.bbox_max.z - mesh.bbox_min.z }

/-- Spec-side view of the full alignment of one pre-rotation position `p0`:
rotate once, then per axis `out[i] = (p[i] - rotatedSourceCenter[i]) *
(destSize[i] / rotatedSourceSize[i]) + destCenter[i]`. -/
def specAlignedPos (header : Header) (mesh : BBox) (p0 : Vec3) : Vec3 :=
  let p := pyRot p0
  let rc := rotatedSourceCenter header
  let rs := rotatedSourceSize header
  let dc := destCenter mesh
  let ds := destSize mesh
  { x := (p.x - rc.x) * (ds.x / rs.x) + dc.x
    y := (p.y - rc.y) * (ds.y / rs.y) + dc.y
    z := (p.z - rc.z) * (ds.z / rs.z) + dc.z }

/-- Spec-side view of the fully aligned plan: every light position is
replaced by its aligned image (rotation applied exactly once inside
`specAlignedPos`), the pre-rotation position is recorded in
`original_position`, and the flat list is the concatenation of the groups. -/
def specAlignedPlan (header : Header) (mesh : BBox) (plan : LightPlan) : LightPlan :=
  let alignLight : LightInfo → LightInfo := fun li =>
    { li with position := specAlignedPos header mesh li.position,
              original_position := some li.position }
  let levels := plan.levels.map
    (fun p => (p.1, { p.2 with lights := p.2.lights.map alignLight }))
  { plan with levels := levels,
              all_positions := (levels.map (fun p => p.2.lights)).flatten }

/-- A light dict as a mutable Python heap object: only the fields the
transforms write are tracked. -/
structure LightObj where
  position : Vec3
  original_position : Option Vec3
deriving DecidableEq

/-- A light plan under Python's object semantics: the level groups and the
flat list hold references (heap indices) into a store of light objects, and
`dict.copy()` is shallow, so input and output plans share those objects. -/
structure PlanRef where
  total_lights : ℕ
  levels : List (ℤ × List ℕ)
  all_positions : List ℕ
deriving DecidableEq

/-- References held by the level groups, in level order (the iteration
order of the rotation loop). -/
def refsFlat (p : PlanRef) : List ℕ := (p.levels.map (fun q => q.2)).flatten

/-- In-place mutation of one light object by the rotation loop body:
`position` becomes its rotated image, `original_position` the old value. -/
def rotObjStep (s : List LightObj) (i : ℕ) : List LightObj :=
  match s[i]? with
  | some o => s.set i { position := pyRot o.position, original_position := some o.position }
  | none => s

/-- `apply_matterport_rotation` under object semantics: the loop mutates the
shared light objects in the store, and the returned plan is a shallow copy
of the input whose `all_positions` key is rebound to the rebuilt flat list;
the input plan keeps referencing the same (now mutated) objects. -/
def apply_matterport_rotation_ref (s : List LightObj) (p : PlanRef) :
    List LightObj × PlanRef :=
  ((refsFlat p).foldl rotObjStep s, { p with all_positions := refsFlat p })

/-- The house center rotated by the fixed basis change, as
`scale_light_positions` derives it from the header bounds. -/
def rotatedHouseCenter (header : Header) : Vec3 :=
  { x := (header.bbox_max.x + header.bbox_min.x) / 2
    y := (header.bbox_max.z + header.bbox_min.z) / 2
    z := -((header.bbox_max.y + header.bbox_min.y) / 2) }

/-- The destination mesh center, as `scale_light_positions` derives it. -/
def isaacCenter (mesh : BBox) : Vec3 :=
  { x := (mesh.bbox_max.x + mesh.bbox_min.x) / 2
    y := (mesh.bbox_max.y + mesh.bbox_min.y) / 2
    z := (mesh.bbox_max.z + mesh.bbox_min.z) / 2 }

/-- The rotated house size, as `scale_light_positions` derives it from the
header bounds (x unchanged, y from original z, z from original y). -/
def rotatedHouseSize (header : Header) : Vec3 :=
  { x := header.bbox_max.x - header.bbox_min.x
    y := header.bbox_max.z - header.bbox_min.z
    z := header.bbox_max.y - header.bbox_min.y }

/-- The destination mesh size, as `scale_light_positions` derives it. -/
def isaacSize (mesh : BBox) : Vec3 :=
  { x := mesh.bbox_max.x - mesh.bbox_min.x
    y := mesh.bbox_max.y - mesh.bbox_min.y
    z := mesh.bbox_max.z - mesh.bbox_min.z }

/-- The per-axis scale factors of `scale_light_positions`. -/
def scaleFactors (mesh : BBox) (header : Header) : Vec3 :=
  { x := (isaacSize mesh).x / (rotatedHouseSize header).x
    y := (isaacSize mesh).y / (rotatedHouseSize header).y
    z := (isaacSize mesh).z / (rotatedHouseSize header).z }

/-- The scale loop's write to one light object: `position` is remapped,
`original_position` is left untouched (only the rotation sets it). -/
def scaleObj (rc ic sf : Vec3) (o : LightObj) : LightObj :=
  { o with position :=
      { x := (o.position.x - rc.x) * sf.x + ic.x
        y := (o.position.y - rc.y) * sf.y + ic.y
        z := (o.position.z - rc.z) * sf.z + ic.z } }

/-- In-place mutation of one light object by the scale loop body. -/
def scaleObjStep (rc ic sf : Vec3) (s : List LightObj) (i : ℕ) : List LightObj :=
  match s[i]? with
  | some o => s.set i (scaleObj rc ic sf o)
  | none => s

/-- `scale_light_positions` under object semantics: the scale factors are
computed before the loop (a zero rotated size raises the generic
`ZeroDivisionError` with the store untouched); otherwise the loop mutates
the shared light objects in the store, and the returned plan is a shallow
copy of the input whose `all_positions` key is rebound to the rebuilt flat
list; the input plan keeps referencing the same (now mutated) objects. -/
def scale_light_positions_ref (s : List LightObj) (p : PlanRef) (mesh : BBox)
    (header : Header) : Except PyErr (List LightObj × PlanRef) :=
  if (rotatedHouseSize header).x = 0 ∨ (rotatedHouseSize header).y = 0
      ∨ (rotatedHouseSize header).z = 0 then
    Except.error PyErr.zeroDivision
  else
    Except.ok
      ((refsFlat p).foldl
        (scaleObjStep (rotatedHouseCenter header) (isaacCenter mesh)
          (scaleFactors mesh header)) s,
       { p with all_positions := refsFlat p })

/-- A closet-labelled region with floor 0 and ceiling 10 (the concrete
instance named by the spec). -/
def closetTall : Region :=
  { region_index := 0, level_index := 0, label := "c",
    center := ⟨0, 0, 0⟩, bbox_min := ⟨0, 0, 0⟩, bbox_max := ⟨1, 1, 10⟩,
    height := 10 }

/-- C5: for every region the light position is the region's center x,y with
the height chosen by the first matching rule of the priority chain (stairs;
closet or toilet capped at 2.2; tall room; default capped at 2.7), and in
particular a closet with floor 0 and ceiling 10 gets height 2.2, not 8. -/
theorem light_height_priority_rule :
    (∀ region : Region,
      calculate_light_position region =
        { x := region.center.x, y := region.center.y,
          z :=
            let floorZ := region.bbox_min.z
            let h := region.bbox_max.z - region.bbox_min.z
            if region.label = "s" then floorZ + 0.4 * h
            else if region.label = "c" ∨ region.label = "t" then
              floorZ + min 2.2 (0.8 * h)
            else if h > 4.0 then floorZ + 0.6 * h
            else floorZ + min 2.7 (0.8 * h) })
    ∧ calculate_light_position closetTall = { x := 0, y := 0, z := 2.2 } := by
  constructor
  · intro region
    simp only [calculate_light_position, Vec3.mk.injEq]
    refine ⟨trivial, trivial, ?_⟩
    split_ifs <;> simp [mul_comm]
  · show calculate_light_position
        { region_index := 0, level_index := 0, label := "c",
          center := ⟨0, 0, 0⟩, bbox_min := ⟨0, 0, 0⟩, bbox_max := ⟨1, 1, 10⟩,
          height := 10 } = ⟨0, 0, 2.2⟩
    simp [calculate_light_position]
    norm_num

/-- Running invariant of the extraction fold: the light count grows by the
number of non-junk regions and the flat list by their light records in
document order. -/
theorem extract_foldl_spec (ls : List Level) (rs : List Region) (p : LightPlan) :
    (rs.foldl (extractStep ls) p).total_lights
        = p.total_lights + (rs.filter (fun r => !(r.label == "Z"))).length
    ∧ (rs.foldl (extractStep ls) p).all_positions
        = p.all_positions ++ (rs.filter (fun r => !(r.label == "Z"))).map mkLightInfo := by
  induction rs generalizing p with
  | nil => simp
  | cons r rs ih =>
    by_cases h : r.label = "Z"
    · have he : extractStep ls p r = p := by simp [extractStep, h]
      have hf : List.filter (fun r => !(r.label == "Z")) (r :: rs)
          = List.filter (fun r => !(r.label == "Z")) rs := by
        simp [List.filter_cons, h]
      rw [List.foldl_cons, he, hf]
      exact ih p
    · have ht : (extractStep ls p r).total_lights = p.total_lights + 1 := by
        simp [extractStep, h]
      have ha : (extractStep ls p r).all_positions
          = p.all_positions ++ [mkLightInfo r] := by
        simp [extractStep, h]
      have hf : List.filter (fun r => !(r.label == "Z")) (r :: rs)
          = r :: List.filter (fun r => !(r.label == "Z")) rs := by
        simp [List.filter_cons, h]
      rcases ih (extractStep ls p r) with ⟨ih1, ih2⟩
      constructor
      · rw [List.foldl_cons, ih1, ht, hf]
        simp only [List.length_cons]
        omega
      · rw [List.foldl_cons, ih2, ha, hf]
        simp [List.append_assoc]

/-- Count split: non-junk plus junk regions make up the whole region list. -/
theorem filter_junk_split (rs : List Region) :
    (rs.filter (fun r => !(r.label == "Z"))).length
      + (rs.filter (fun r => r.label == "Z")).length = rs.length := by
  induction rs with
  | nil => simp
  | cons r rs ih =>
    by_cases h : r.label = "Z" <;> simp [List.filter_cons, h] <;> omega

/-- C6: junk regions produce no light: the total light count is the number
of regions minus the number of junk-labelled ones, equals the flat list
length, and no produced light carries the junk label. -/
theorem junk_regions_produce_no_lights :
    ∀ hd : HouseData,
      (extract_light_positions hd).total_lights
          = hd.regions.length - (hd.regions.filter (fun r => r.label == "Z")).length
      ∧ (extract_light_positions hd).total_lights
          = (extract_light_positions hd).all_positions.length
      ∧ (extract_light_positions hd).all_positions.all
          (fun li => !(li.room_label == "Z")) = true := by
  intro hd
  rcases extract_foldl_spec hd.levels hd.regions
      { total_lights := 0, levels := [], all_positions := [] } with ⟨h1, h2⟩
  have h1' : (extract_light_positions hd).total_lights
      = 0 + (hd.regions.filter (fun r => !(r.label == "Z"))).length := h1
  have h2' : (extract_light_positions hd).all_positions
      = [] ++ (hd.regions.filter (fun r => !(r.label == "Z"))).map mkLightInfo := h2
  have hsplit := filter_junk_split hd.regions
  refine ⟨?_, ?_, ?_⟩
  · rw [h1']; omega
  · rw [h1', h2']; simp
  · rw [h2']
    simp only [List.nil_append, List.all_eq_true]
    intro li hli
    rcases List.mem_map.mp hli with ⟨r, hr, hmk⟩
    rcases List.mem_filter.mp hr with ⟨-, hlab⟩
    subst hmk
    simpa [mkLightInfo] using hlab

/-- C9 counterexample: the label-code table has 31 entries (25 lowercase
letters, no q, plus B, C, D, S, Z and the dash), not 30 as claimed. -/
theorem label_table_has_31_entries :
    room_type_mapping.length = 31 ∧ room_type_mapping.length ≠ 30 := by decide

/-- C9 (amended to the 31-entry table): a label code absent from the label
table resolves to room type other, a room type absent from the intensity
table resolves to the default 1000, the extraction uses exactly these
lookups, and the known entries give k to kitchen to 15000 and b to bedroom
to 8000. -/
theorem unknown_code_fallbacks :
    (∀ label, room_type_mapping.find? (fun p => p.1 == label) = none →
        dictGet room_type_mapping label "other" = "other")
    ∧ (∀ rt, room_intensities.find? (fun p => p.1 == rt) = none →
        dictGet room_intensities rt 1000 = 1000)
    ∧ (∀ r : Region,
        (mkLightInfo r).room_type = dictGet room_type_mapping r.label "other"
        ∧ (mkLightInfo r).intensity
            = dictGet room_intensities (mkLightInfo r).room_type 1000)
    ∧ dictGet room_type_mapping "k" "other" = "kitchen"
    ∧ dictGet room_intensities "kitchen" 1000 = 15000
    ∧ dictGet room_type_mapping "b" "other" = "bedroom"
    ∧ dictGet room_intensities "bedroom" 1000 = 8000 := by
  refine ⟨?_, ?_, ?_, by decide, by decide, by decide, by decide⟩
  · intro label h; simp [dictGet, h]
  · intro rt h; simp [dictGet, h]
  · intro r; exact ⟨rfl, rfl⟩

/-- Witness for the fallback clauses at concrete unknown keys: the code q
is not a label code and resolves to other; tv_room is a room type with no
intensity entry and resolves to 1000. -/
theorem unknown_code_fallbacks_witness :
    room_type_mapping.find? (fun p => p.1 == "q") = none
    ∧ dictGet room_type_mapping "q" "other" = "other"
    ∧ room_intensities.find? (fun p => p.1 == "tv_room") = none
    ∧ dictGet room_intensities "tv_room" 1000 = 1000 :=
  ⟨by decide, unknown_code_fallbacks.1 "q" (by decide),
   by decide, unknown_code_fallbacks.2.1 "tv_room" (by decide)⟩

/-- C10: the parser is a pure function of the file text, so parsing the
same content twice yields structurally equal documents and warnings. -/
theorem parse_deterministic (t1 t2 : String) (h : t1 = t2) :
    parse_house_file t1 = parse_house_file t2 := by rw [h]

/-- Witness: determinism at a concrete text. -/
theorem parse_deterministic_witness :
    ("H a b" : String) = "H a b"
    ∧ parse_house_file "H a b" = parse_house_file "H a b" :=
  ⟨rfl, parse_deterministic "H a b" "H a b" rfl⟩

/-- A bathroom region on level 0. -/
def regA : Region :=
  { region_index := 0, level_index := 0, label := "a",
    center := ⟨0, 0, 0⟩, bbox_min := ⟨0, 0, 0⟩, bbox_max := ⟨1, 1, 1⟩,
    height := 1 }

/-- A second region, on level 1. -/
def regB : Region := { regA with region_index := 1, level_index := 1 }

/-- A third region, back on level 0. -/
def regC : Region := { regA with region_index := 2, level_index := 0 }

/-- A document whose regions interleave two levels in document order. -/
def interleavedDoc : HouseData :=
  { header := none, levels := [], regions := [regA, regB, regC] }

/-- C3 counterexample: on a document whose regions interleave levels 0 and 1,
the extraction's flat list (document order 0,1,2) differs from the level
concatenation (group order 0,2,1), because `extract_light_positions` appends
to both views in parallel instead of rebuilding the flat list. -/
theorem flat_list_interleaved_cex :
    (extract_light_positions interleavedDoc).all_positions
      ≠ ((extract_light_positions interleavedDoc).levels.map
          (fun p => p.2.lights)).flatten := by
  intro h
  exact absurd (congrArg (List.map (fun li => li.region_index)) h) (by decide)

/-- C3 (amended): the concatenation invariant holds for the plans returned
by the rotation and the scaling stages, which rebuild the flat list from the
level groups; the extraction stage instead emits the flat list in document
order, which coincides with the concatenation only when each level's regions
are contiguous. -/
theorem flat_list_concat_after_transforms :
    (∀ plan : LightPlan,
      (apply_matterport_rotation plan).all_positions
        = ((apply_matterport_rotation plan).levels.map (fun p => p.2.lights)).flatten)
    ∧ (∀ (plan : LightPlan) (mesh : BBox) (header : Header) (q : LightPlan),
        scale_light_positions plan mesh header = Except.ok q →
        q.all_positions = (q.levels.map (fun p => p.2.lights)).flatten) := by
  constructor
  · intro plan; rfl
  · intro plan mesh header q hq
    simp only [scale_light_positions] at hq
    split at hq
    · cases hq
    · cases hq
      rfl

/-- A plan with no lights (for concrete alignment instances). -/
def emptyPlan : LightPlan := { total_lights := 0, levels := [], all_positions := [] }

/-- A source header with the bounding box min (-5,-5,-1), max (5,5,3). -/
def hdrW : Header :=
  { name := "w", num_regions := 0, num_levels := 0,
    bbox_min := ⟨-5, -5, -1⟩, bbox_max := ⟨5, 5, 3⟩ }

/-- A destination bounding box min (0,0,0), max (10,10,4). -/
def meshW : BBox := { bbox_min := ⟨0, 0, 0⟩, bbox_max := ⟨10, 10, 4⟩ }

/-- Witness: a successful scaling call on a concrete plan whose result
satisfies the concatenation invariant. -/
theorem flat_list_concat_after_transforms_witness :
    scale_light_positions emptyPlan meshW hdrW = Except.ok emptyPlan
    ∧ emptyPlan.all_positions = (emptyPlan.levels.map (fun p => p.2.lights)).flatten := by
  have hs : scale_light_positions emptyPlan meshW hdrW = Except.ok emptyPlan := by
    simp [scale_light_positions, hdrW, meshW, emptyPlan]
    norm_num
  exact ⟨hs, flat_list_concat_after_transforms.2 emptyPlan meshW hdrW emptyPlan hs⟩

/-- A header whose bounding box is degenerate on the x axis. -/
def degenerateHdr : Header :=
  { name := "d", num_regions := 0, num_levels := 0,
    bbox_min := ⟨0, 0, 0⟩, bbox_max := ⟨0, 2, 3⟩ }

/-- C2 counterexample: on a zero x-extent source box the alignment stops
with the generic division-by-zero error of the unguarded
`isaac_size[i] / rotated_house_size[i]`; no distinct DegenerateBounds
failure kind exists anywhere in the code for a caller to branch on. -/
theorem degenerate_bounds_generic_error_cex :
    scale_light_positions emptyPlan meshW degenerateHdr
      = Except.error PyErr.zeroDivision := by
  simp [scale_light_positions, degenerateHdr]

/-- C2 (amended): whenever the rotated source box has a zero extent on some
axis, the alignment raises Python's generic `ZeroDivisionError` before
producing any output position, so no infinite or undefined scale is ever
silently produced — but the failure is a generic exception, not a named
DegenerateBounds condition. -/
theorem degenerate_axis_zero_division (plan : LightPlan) (mesh : BBox)
    (header : Header)
    (h : header.bbox_max.x - header.bbox_min.x = 0
       ∨ header.bbox_max.z - header.bbox_min.z = 0
       ∨ header.bbox_max.y - header.bbox_min.y = 0) :
    scale_light_positions plan mesh header = Except.error PyErr.zeroDivision := by
  simp only [scale_light_positions]
  rw [if_pos h]

/-- Witness: the generic error at a concrete degenerate header. -/
theorem degenerate_axis_zero_division_witness :
    (degenerateHdr.bbox_max.x - degenerateHdr.bbox_min.x = 0
       ∨ degenerateHdr.bbox_max.z - degenerateHdr.bbox_min.z = 0
       ∨ degenerateHdr.bbox_max.y - degenerateHdr.bbox_min.y = 0)
    ∧ scale_light_positions emptyPlan meshW degenerateHdr
        = Except.error PyErr.zeroDivision :=
  ⟨Or.inl (by norm_num [degenerateHdr]),
   degenerate_axis_zero_division emptyPlan meshW degenerateHdr
     (Or.inl (by norm_num [degenerateHdr]))⟩

/-- A short `H` line falls into the length guard's else branch: silent skip. -/
theorem processLine_short_H (parts : List String) (h : parts.head? = some "H")
    (hlen : parts.length < 24) : processLine parts = LineResult.skip := by
  cases parts with
  | nil => cases h
  | cons t rest =>
    have ht : t = "H" := by simpa using h
    subst ht
    simp only [processLine, parseHeaderLine]
    rw [if_neg (Nat.not_le.mpr hlen)]
    simp

/-- A short `L` line falls into the length guard's else branch: silent skip. -/
theorem processLine_short_L (parts : List String) (h : parts.head? = some "L")
    (hlen : parts.length < 13) : processLine parts = LineResult.skip := by
  cases parts with
  | nil => cases h
  | cons t rest =>
    have ht : t = "L" := by simpa using h
    subst ht
    simp only [processLine, parseLevelLine]
    rw [if_neg (Nat.not_le.mpr hlen)]
    simp

/-- A short `R` line falls into the length guard's else branch: silent skip. -/
theorem processLine_short_R (parts : List String) (h : parts.head? = some "R")
    (hlen : parts.length < 16) : processLine parts = LineResult.skip := by
  cases parts with
  | nil => cases h
  | cons t rest =>
    have ht : t = "R" := by simpa using h
    subst ht
    simp only [processLine, parseRegionLine]
    rw [if_neg (Nat.not_le.mpr hlen)]
    simp

/-- A line whose tag is none of H, L, R is silently ignored. -/
theorem processLine_unrecognized (parts : List String) (tag : String)
    (h : parts.head? = some tag) (hH : tag ≠ "H") (hL : tag ≠ "L")
    (hR : tag ≠ "R") : processLine parts = LineResult.skip := by
  cases parts with
  | nil => cases h
  | cons t rest =>
    have ht : t = tag := by simpa using h
    subst ht
    simp only [processLine]
    rw [if_neg hH, if_neg hL, if_neg hR]

/-- An `H` line with enough tokens and convertible numeric fields stores
the header record with fields at the fixed offsets. -/
theorem processLine_H_ok (parts : List String) (nr nl : ℤ) (bmin bmax : Vec3)
    (hh : parts.head? = some "H") (hlen : 24 ≤ parts.length)
    (h10 : pyInt (parts.getD 10 "") = some nr)
    (h12 : pyInt (parts.getD 12 "") = some nl)
    (hmin : parseVec3 (parts.getD 18 "") (parts.getD 19 "") (parts.getD 20 "") = some bmin)
    (hmax : parseVec3 (parts.getD 21 "") (parts.getD 22 "") (parts.getD 23 "") = some bmax) :
    processLine parts = LineResult.header
      { name := parts.getD 1 "", num_regions := nr, num_levels := nl,
        bbox_min := bmin, bbox_max := bmax } := by
  cases parts with
  | nil => cases hh
  | cons t rest =>
    have ht : t = "H" := by simpa using hh
    subst ht
    have e1 : processLine ("H" :: rest) = parseHeaderLine ("H" :: rest) := rfl
    rw [e1]
    unfold parseHeaderLine
    rw [if_pos hlen, h10, h12, hmin, hmax]

/-- An `L` line with enough tokens and convertible numeric fields stores
the level record with fields at the fixed offsets. -/
theorem processLine_L_ok (parts : List String) (i nr : ℤ) (c bmin bmax : Vec3)
    (hh : parts.head? = some "L") (hlen : 13 ≤ parts.length)
    (h1 : pyInt (parts.getD 1 "") = some i)
    (h2 : pyInt (parts.getD 2 "") = some nr)
    (hc : parseVec3 (parts.getD 4 "") (parts.getD 5 "") (parts.getD 6 "") = some c)
    (hmin : parseVec3 (parts.getD 7 "") (parts.getD 8 "") (parts.getD 9 "") = some bmin)
    (hmax : parseVec3 (parts.getD 10 "") (parts.getD 11 "") (parts.getD 12 "") = some bmax) :
    processLine parts = LineResult.level
      { level_index := i, num_regions := nr, label := parts.getD 3 "",
        center := c, bbox_min := bmin, bbox_max := bmax } := by
  cases parts with
  | nil => cases hh
  | cons t rest =>
    have ht : t = "L" := by simpa using hh
    subst ht
    have e1 : processLine ("L" :: rest) = parseLevelLine ("L" :: rest) := rfl
    rw [e1]
    unfold parseLevelLine
    rw [if_pos hlen, h1, h2, hc, hmin, hmax]

/-- An `R` line with enough tokens and convertible numeric fields stores
the region record with fields at the fixed offsets. -/
theorem processLine_R_ok (parts : List String) (i li : ℤ) (c bmin bmax : Vec3)
    (ht15 : ℚ) (hh : parts.head? = some "R") (hlen : 16 ≤ parts.length)
    (h1 : pyInt (parts.getD 1 "") = some i)
    (h2 : pyInt (parts.getD 2 "") = some li)
    (hc : parseVec3 (parts.getD 6 "") (parts.getD 7 "") (parts.getD 8 "") = some c)
    (hmin : parseVec3 (parts.getD 9 "") (parts.getD 10 "") (parts.getD 11 "") = some bmin)
    (hmax : parseVec3 (parts.getD 12 "") (parts.getD 13 "") (parts.getD 14 "") = some bmax)
    (h15 : pyFloat (parts.getD 15 "") = some ht15) :
    processLine parts = LineResult.region
      { region_index := i, level_index := li, label := parts.getD 5 "",
        center := c, bbox_min := bmin, bbox_max := bmax, height := ht15 } := by
  cases parts with
  | nil => cases hh
  | cons t rest =>
    have ht : t = "R" := by simpa using hh
    subst ht
    have e1 : processLine ("R" :: rest) = parseRegionLine ("R" :: rest) := rfl
    rw [e1]
    unfold parseRegionLine
    rw [if_pos hlen, h1, h2, hc, hmin, hmax, h15]

/-- An `H` line with enough tokens but a failing numeric conversion warns
(the caught `ValueError`) and stores nothing. -/
theorem processLine_H_bad (parts : List String)
    (hh : parts.head? = some "H") (hlen : 24 ≤ parts.length)
    (hbad : pyInt (parts.getD 10 "") = none ∨ pyInt (parts.getD 12 "") = none
      ∨ parseVec3 (parts.getD 18 "") (parts.getD 19 "") (parts.getD 20 "") = none
      ∨ parseVec3 (parts.getD 21 "") (parts.getD 22 "") (parts.getD 23 "") = none) :
    processLine parts = LineResult.warn := by
  cases parts with
  | nil => cases hh
  | cons t rest =>
    have ht : t = "H" := by simpa using hh
    subst ht
    have e1 : processLine ("H" :: rest) = parseHeaderLine ("H" :: rest) := rfl
    rw [e1]
    unfold parseHeaderLine
    rw [if_pos hlen]
    rcases hA : pyInt (("H" :: rest).getD 10 "") with _ | vA <;>
      rcases hB : pyInt (("H" :: rest).getD 12 "") with _ | vB <;>
      rcases hC : parseVec3 (("H" :: rest).getD 18 "") (("H" :: rest).getD 19 "")
          (("H" :: rest).getD 20 "") with _ | vC <;>
      rcases hD : parseVec3 (("H" :: rest).getD 21 "") (("H" :: rest).getD 22 "")
          (("H" :: rest).getD 23 "") with _ | vD <;>
      simp_all

/-- An `L` line with enough tokens but a failing numeric conversion warns
and stores nothing. -/
theorem processLine_L_bad (parts : List String)
    (hh : parts.head? = some "L") (hlen : 13 ≤ parts.length)
    (hbad : pyInt (parts.getD 1 "") = none ∨ pyInt (parts.getD 2 "") = none
      ∨ parseVec3 (parts.getD 4 "") (parts.getD 5 "") (parts.getD 6 "") = none
      ∨ parseVec3 (parts.getD 7 "") (parts.getD 8 "") (parts.getD 9 "") = none
      ∨ parseVec3 (parts.getD 10 "") (parts.getD 11 "") (parts.getD 12 "") = none) :
    processLine parts = LineResult.warn := by
  cases parts with
  | nil => cases hh
  | cons t rest =>
    have ht : t = "L" := by simpa using hh
    subst ht
    have e1 : processLine ("L" :: rest) = parseLevelLine ("L" :: rest) := rfl
    rw [e1]
    unfold parseLevelLine
    rw [if_pos hlen]
    rcases hA : pyInt (("L" :: rest).getD 1 "") with _ | vA <;>
      rcases hB : pyInt (("L" :: rest).getD 2 "") with _ | vB <;>
      rcases hC : parseVec3 (("L" :: rest).getD 4 "") (("L" :: rest).getD 5 "")
          (("L" :: rest).getD 6 "") with _ | vC <;>
      rcases hD : parseVec3 (("L" :: rest).getD 7 "") (("L" :: rest).getD 8 "")
          (("L" :: rest).getD 9 "") with _ | vD <;>
      rcases hE : parseVec3 (("L" :: rest).getD 10 "") (("L" :: rest).getD 11 "")
          (("L" :: rest).getD 12 "") with _ | vE <;>
      simp_all

/-- An `R` line with enough tokens but a failing numeric conversion warns
and stores nothing. -/
theorem processLine_R_bad (parts : List String)
    (hh : parts.head? = some "R") (hlen : 16 ≤ parts.length)
    (hbad : pyInt (parts.getD 1 "") = none ∨ pyInt (parts.getD 2 "") = none
      ∨ parseVec3 (parts.getD 6 "") (parts.getD 7 "") (parts.getD 8 "") = none
      ∨ parseVec3 (parts.getD 9 "") (parts.getD 10 "") (parts.getD 11 "") = none
      ∨ parseVec3 (parts.getD 12 "") (parts.getD 13 "") (parts.getD 14 "") = none
      ∨ pyFloat (parts.getD 15 "") = none) :
    processLine parts = LineResult.warn := by
  cases parts with
  | nil => cases hh
  | cons t rest =>
    have ht : t = "R" := by simpa using hh
    subst ht
    have e1 : processLine ("R" :: rest) = parseRegionLine ("R" :: rest) := rfl
    rw [e1]
    unfold parseRegionLine
    rw [if_pos hlen]
    rcases hA : pyInt (("R" :: rest).getD 1 "") with _ | vA <;>
      rcases hB : pyInt (("R" :: rest).getD 2 "") with _ | vB <;>
      rcases hC : parseVec3 (("R" :: rest).getD 6 "") (("R" :: rest).getD 7 "")
          (("R" :: rest).getD 8 "") with _ | vC <;>
      rcases hD : parseVec3 (("R" :: rest).getD 9 "") (("R" :: rest).getD 10 "")
          (("R" :: rest).getD 11 "") with _ | vD <;>
      rcases hE : parseVec3 (("R" :: rest).getD 12 "") (("R" :: rest).getD 13 "")
          (("R" :: rest).getD 14 "") with _ | vE <;>
      rcases hF : pyFloat (("R" :: rest).getD 15 "") with _ | vF <;>
      first
        | rfl
        | (rcases hbad with h | h | h | h | h | h
           · rw [h] at hA; cases hA
           · rw [h] at hB; cases hB
           · rw [h] at hC; cases hC
           · rw [h] at hD; cases hD
           · rw [h] at hE; cases hE
           · rw [h] at hF; cases hF)

/-- A skipped or warned line leaves the document under construction
unchanged (no partial record is stored). -/
theorem docStep_id (d : HouseData) (line : String)
    (h : processLine (tokenize line) = LineResult.skip
       ∨ processLine (tokenize line) = LineResult.warn) :
    docStep d line = d := by
  rcases h with h | h <;> simp [docStep, h]

/-- The warning flag of a line holds exactly for the caught-`ValueError`
outcome. -/
theorem lineWarn_iff (line : String) :
    lineWarn line = true ↔ processLine (tokenize line) = LineResult.warn := by
  unfold lineWarn
  cases h : processLine (tokenize line) <;> simp

/-- Dropping a skipped or warned line does not change the parsed document:
parsing proceeds through the remaining lines as if the bad line were not
there. -/
theorem parse_doc_skips_bad_line (lines1 lines2 : List String) (bad : String)
    (d : HouseData)
    (h : processLine (tokenize bad) = LineResult.skip
       ∨ processLine (tokenize bad) = LineResult.warn) :
    (lines1 ++ bad :: lines2).foldl docStep d
      = (lines1 ++ lines2).foldl docStep d := by
  rw [List.foldl_append, List.foldl_append, List.foldl_cons, docStep_id _ _ h]

/-- C4 counterexample: the recognized-tag line `H 1 2` is shorter than the
24-token minimum; the parser skips it silently — no warning is emitted,
contrary to the claim — and stores no header. -/
theorem short_line_no_warning_cex :
    (tokenize "H 1 2").head? = some "H"
    ∧ (tokenize "H 1 2").length < 24
    ∧ (parse_house_file "H 1 2").2 = []
    ∧ (parse_house_file "H 1 2").1 = { header := none, levels := [], regions := [] } := by
  refine ⟨by decide, by decide, by decide, by decide⟩

/-- C4 (amended): a recognized-tag line below its minimum token count is
silently skipped (no warning, no record); a recognized-tag line of
sufficient length with a non-numeric value in a numeric field produces a
warning and stores no record; in both cases the document is unchanged and
parsing continues over the remaining lines; the warning list of
`parse_house_file` records exactly the warned lines. -/
theorem malformed_line_handling :
    (∀ parts, parts.head? = some "H" → parts.length < 24 →
        processLine parts = LineResult.skip)
    ∧ (∀ parts, parts.head? = some "L" → parts.length < 13 →
        processLine parts = LineResult.skip)
    ∧ (∀ parts, parts.head? = some "R" → parts.length < 16 →
        processLine parts = LineResult.skip)
    ∧ (∀ parts, parts.head? = some "H" → 24 ≤ parts.length →
        (pyInt (parts.getD 10 "") = none ∨ pyInt (parts.getD 12 "") = none
          ∨ parseVec3 (parts.getD 18 "") (parts.getD 19 "") (parts.getD 20 "") = none
          ∨ parseVec3 (parts.getD 21 "") (parts.getD 22 "") (parts.getD 23 "") = none) →
        processLine parts = LineResult.warn)
    ∧ (∀ parts, parts.head? = some "L" → 13 ≤ parts.length →
        (pyInt (parts.getD 1 "") = none ∨ pyInt (parts.getD 2 "") = none
          ∨ parseVec3 (parts.getD 4 "") (parts.getD 5 "") (parts.getD 6 "") = none
          ∨ parseVec3 (parts.getD 7 "") (parts.getD 8 "") (parts.getD 9 "") = none
          ∨ parseVec3 (parts.getD 10 "") (parts.getD 11 "") (parts.getD 12 "") = none) →
        processLine parts = LineResult.warn)
    ∧ (∀ parts, parts.head? = some "R" → 16 ≤ parts.length →
        (pyInt (parts.getD 1 "") = none ∨ pyInt (parts.getD 2 "") = none
          ∨ parseVec3 (parts.getD 6 "") (parts.getD 7 "") (parts.getD 8 "") = none
          ∨ parseVec3 (parts.getD 9 "") (parts.getD 10 "") (parts.getD 11 "") = none
          ∨ parseVec3 (parts.getD 12 "") (parts.getD 13 "") (parts.getD 14 "") = none
          ∨ pyFloat (parts.getD 15 "") = none) →
        processLine parts = LineResult.warn)
    ∧ (∀ (d : HouseData) (line : String),
        processLine (tokenize line) = LineResult.skip
          ∨ processLine (tokenize line) = LineResult.warn →
        docStep d line = d)
    ∧ (∀ line, lineWarn line = true ↔ processLine (tokenize line) = LineResult.warn)
    ∧ (∀ (lines1 lines2 : List String) (bad : String) (d : HouseData),
        processLine (tokenize bad) = LineResult.skip
          ∨ processLine (tokenize bad) = LineResult.warn →
        (lines1 ++ bad :: lines2).foldl docStep d
          = (lines1 ++ lines2).foldl docStep d)
    ∧ (∀ text, parse_house_file text
        = ((splitLines text).foldl docStep { header := none, levels := [], regions := [] },
           (((splitLines text).enum.filter (fun p => lineWarn p.2)).map (fun p => p.1 + 1)))) :=
  ⟨processLine_short_H, processLine_short_L, processLine_short_R,
   processLine_H_bad, processLine_L_bad, processLine_R_bad,
   docStep_id, lineWarn_iff, parse_doc_skips_bad_line, fun _ => rfl⟩

/-- A 24-token `H` line whose numeric field at offset 10 is not a number. -/
def badHLine : List String :=
  ["H", "n", "x", "x", "x", "x", "x", "x", "x", "x", "x", "x", "1",
   "x", "x", "x", "x", "x", "0", "0", "0", "1", "1", "1"]

/-- Witness: the short line `H 1 2` is skipped; a 24-token `H` line with a
non-numeric count field warns; both leave the document unchanged and do not
stop the parse. -/
theorem malformed_line_handling_witness :
    processLine (tokenize "H 1 2") = LineResult.skip
    ∧ processLine badHLine = LineResult.warn
    ∧ docStep { header := none, levels := [], regions := [] } "H 1 2"
        = { header := none, levels := [], regions := [] }
    ∧ (["x y"] ++ "H 1 2" :: ["z"]).foldl docStep
          { header := none, levels := [], regions := [] }
        = (["x y"] ++ ["z"]).foldl docStep
          { header := none, levels := [], regions := [] } :=
  ⟨malformed_line_handling.1 (tokenize "H 1 2") (by decide) (by decide),
   malformed_line_handling.2.2.2.1 badHLine (by decide) (by decide)
     (Or.inl (by decide)),
   (malformed_line_handling.2.2.2.2.2.2.1) _ "H 1 2" (Or.inl (by decide)),
   (malformed_line_handling.2.2.2.2.2.2.2.2.1) ["x y"] ["z"] "H 1 2" _
     (Or.inl (by decide))⟩

/-- C7: the parser recognizes exactly the tags H, L and R with minimum
token counts 24, 13 and 16; on a sufficiently long line with convertible
numeric fields it extracts the record fields at the fixed 0-indexed token
offsets of the format table; every line with any other tag is silently
ignored. -/
theorem recognized_tags_and_offsets :
    (∀ parts tag, parts.head? = some tag → tag ≠ "H" → tag ≠ "L" → tag ≠ "R" →
        processLine parts = LineResult.skip)
    ∧ (∀ parts, parts.head? = some "H" → parts.length < 24 →
        processLine parts = LineResult.skip)
    ∧ (∀ parts, parts.head? = some "L" → parts.length < 13 →
        processLine parts = LineResult.skip)
    ∧ (∀ parts, parts.head? = some "R" → parts.length < 16 →
        processLine parts = LineResult.skip)
    ∧ (∀ (parts : List String) (nr nl : ℤ) (bmin bmax : Vec3),
        parts.head? = some "H" → 24 ≤ parts.length →
        pyInt (parts.getD 10 "") = some nr →
        pyInt (parts.getD 12 "") = some nl →
        parseVec3 (parts.getD 18 "") (parts.getD 19 "") (parts.getD 20 "") = some bmin →
        parseVec3 (parts.getD 21 "") (parts.getD 22 "") (parts.getD 23 "") = some bmax →
        processLine parts = LineResult.header
          { name := parts.getD 1 "", num_regions := nr, num_levels := nl,
            bbox_min := bmin, bbox_max := bmax })
    ∧ (∀ (parts : List String) (i nr : ℤ) (c bmin bmax : Vec3),
        parts.head? = some "L" → 13 ≤ parts.length →
        pyInt (parts.getD 1 "") = some i →
        pyInt (parts.getD 2 "") = some nr →
        parseVec3 (parts.getD 4 "") (parts.getD 5 "") (parts.getD 6 "") = some c →
        parseVec3 (parts.getD 7 "") (parts.getD 8 "") (parts.getD 9 "") = some bmin →
        parseVec3 (parts.getD 10 "") (parts.getD 11 "") (parts.getD 12 "") = some bmax →
        processLine parts = LineResult.level
          { level_index := i, num_regions := nr, label := parts.getD 3 "",
            center := c, bbox_min := bmin, bbox_max := bmax })
    ∧ (∀ (parts : List String) (i li : ℤ) (c bmin bmax : Vec3) (ht15 : ℚ),
        parts.head? = some "R" → 16 ≤ parts.length →
        pyInt (parts.getD 1 "") = some i →
        pyInt (parts.getD 2 "") = some li →
        parseVec3 (parts.getD 6 "") (parts.getD 7 "") (parts.getD 8 "") = some c →
        parseVec3 (parts.getD 9 "") (parts.getD 10 "") (parts.getD 11 "") = some bmin →
        parseVec3 (parts.getD 12 "") (parts.getD 13 "") (parts.getD 14 "") = some bmax →
        pyFloat (parts.getD 15 "") = some ht15 →
        processLine parts = LineResult.region
          { region_index := i, level_index := li, label := parts.getD 5 "",
            center := c, bbox_min := bmin, bbox_max := bmax, height := ht15 }) :=
  ⟨processLine_unrecognized, processLine_short_H, processLine_short_L,
   processLine_short_R, processLine_H_ok, processLine_L_ok, processLine_R_ok⟩

/-- A well-formed 24-token `H` line. -/
def hTokens : List String :=
  ["H", "name", "x", "x", "x", "x", "x", "x", "x", "x", "3", "x", "1",
   "x", "x", "x", "x", "x", "-1", "-2", "-3", "1", "2", "3"]

/-- A well-formed 13-token `L` line. -/
def lTokens : List String :=
  ["L", "0", "2", "lvl", "0", "0", "0", "-1", "-1", "-1", "1", "1", "1"]

/-- A well-formed 16-token `R` line. -/
def rTokens : List String :=
  ["R", "4", "0", "x", "x", "k", "1", "2", "3", "0", "0", "0", "2", "2", "2", "5"]

/-- Witness: an unknown tag Q is ignored, and concrete H, L and R lines
yield the records with the fields read at the table's offsets. -/
theorem recognized_tags_and_offsets_witness :
    processLine ["Q", "z"] = LineResult.skip
    ∧ processLine hTokens = LineResult.header
        { name := "name", num_regions := 3, num_levels := 1,
          bbox_min := ⟨-1, -2, -3⟩, bbox_max := ⟨1, 2, 3⟩ }
    ∧ processLine lTokens = LineResult.level
        { level_index := 0, num_regions := 2, label := "lvl",
          center := ⟨0, 0, 0⟩, bbox_min := ⟨-1, -1, -1⟩, bbox_max := ⟨1, 1, 1⟩ }
    ∧ processLine rTokens = LineResult.region
        { region_index := 4, level_index := 0, label := "k",
          center := ⟨1, 2, 3⟩, bbox_min := ⟨0, 0, 0⟩, bbox_max := ⟨2, 2, 2⟩,
          height := 5 } :=
  ⟨recognized_tags_and_offsets.1 ["Q", "z"] "Q" rfl (by decide) (by decide) (by decide),
   recognized_tags_and_offsets.2.2.2.2.1 hTokens 3 1 ⟨-1, -2, -3⟩ ⟨1, 2, 3⟩
     rfl (by decide) (by decide) (by decide) (by decide) (by decide),
   recognized_tags_and_offsets.2.2.2.2.2.1 lTokens 0 2 ⟨0, 0, 0⟩ ⟨-1, -1, -1⟩ ⟨1, 1, 1⟩
     rfl (by decide) (by decide) (by decide) (by decide) (by decide) (by decide),
   recognized_tags_and_offsets.2.2.2.2.2.2 rTokens 4 0 ⟨1, 2, 3⟩ ⟨0, 0, 0⟩ ⟨2, 2, 2⟩ 5
     rfl (by decide) (by decide) (by decide) (by decide) (by decide) (by decide) (by decide)⟩

/-- Mutating light object j leaves every other store index unchanged. -/
theorem rotObjStep_other (s : List LightObj) (j i : ℕ) (h : i ≠ j) :
    (rotObjStep s j)[i]? = s[i]? := by
  unfold rotObjStep
  cases hj : s[j]? with
  | none => rfl
  | some o => exact List.getElem?_set_ne (Ne.symm h)

/-- Folding the mutation over indices avoiding i preserves store slot i. -/
theorem foldl_rotObjStep_not_mem (l : List ℕ) (s : List LightObj) (i : ℕ)
    (h : i ∉ l) : (l.foldl rotObjStep s)[i]? = s[i]? := by
  induction l generalizing s with
  | nil => rfl
  | cons j t ih =>
    rw [List.foldl_cons, ih _ (fun hm => h (List.mem_cons_of_mem j hm))]
    exact rotObjStep_other s j i (fun he => h (he ▸ List.mem_cons_self j t))

/-- Folding the mutation over a reference list that holds i exactly once
rewrites store slot i to the rotated object. -/
theorem foldl_rotObjStep_once (l : List ℕ) (s : List LightObj) (i : ℕ)
    (o : LightObj) (hcount : l.count i = 1) (hget : s[i]? = some o) :
    (l.foldl rotObjStep s)[i]?
      = some { position := pyRot o.position, original_position := some o.position } := by
  revert hcount hget
  induction l generalizing s with
  | nil => intro hcount _; simp at hcount
  | cons j t ih =>
    intro hcount hget
    rw [List.foldl_cons]
    by_cases hji : j = i
    · subst hji
      have ht : j ∉ t := by
        rw [List.count_cons] at hcount
        simp at hcount
        exact List.count_eq_zero.mp hcount
      have hs : rotObjStep s j
          = s.set j { position := pyRot o.position, original_position := some o.position } := by
        unfold rotObjStep; rw [hget]
      have hlen : j < s.length := (List.getElem?_eq_some_iff.mp hget).1
      rw [hs, foldl_rotObjStep_not_mem t _ j ht]
      exact List.getElem?_set_self hlen
    · have hc : t.count i = 1 := by
        rw [List.count_cons] at hcount
        simpa [hji] using hcount
      have hget' : (rotObjStep s j)[i]? = some o := by
        rw [rotObjStep_other s j i (Ne.symm hji)]; exact hget
      exact ih (rotObjStep s j) hc hget'

/-- A one-light store: position (1,2,3), no original position recorded. -/
def storeC8 : List LightObj := [{ position := ⟨1, 2, 3⟩, original_position := none }]

/-- A plan whose level 0 group and flat list both reference light object 0. -/
def planC8 : PlanRef := { total_lights := 1, levels := [(0, [0])], all_positions := [0] }

/-- C8 counterexample: the rotation's `dict.copy()` is shallow, so the light
object referenced by the input plan's level group and flat list is mutated
in place: after the call it carries the rotated position (1,3,-2), not the
pre-transform position (1,2,3). -/
theorem rotation_mutates_input_cex :
    planC8.levels = [(0, [0])]
    ∧ storeC8[0]?.map LightObj.position = some ⟨1, 2, 3⟩
    ∧ ((apply_matterport_rotation_ref storeC8 planC8).1)[0]?.map LightObj.position
        = some ⟨1, 3, -2⟩
    ∧ (⟨1, 3, -2⟩ : Vec3) ≠ ⟨1, 2, 3⟩ := by
  refine ⟨rfl, by decide, by decide, by decide⟩

/-- Mutating light object j by the scale loop leaves every other store
index unchanged. -/
theorem scaleObjStep_other (rc ic sf : Vec3) (s : List LightObj) (j i : ℕ)
    (h : i ≠ j) : (scaleObjStep rc ic sf s j)[i]? = s[i]? := by
  unfold scaleObjStep
  cases hj : s[j]? with
  | none => rfl
  | some o => exact List.getElem?_set_ne (Ne.symm h)

/-- Folding the scale mutation over indices avoiding i preserves slot i. -/
theorem foldl_scaleObjStep_not_mem (rc ic sf : Vec3) (l : List ℕ)
    (s : List LightObj) (i : ℕ) (h : i ∉ l) :
    (l.foldl (scaleObjStep rc ic sf) s)[i]? = s[i]? := by
  induction l generalizing s with
  | nil => rfl
  | cons j t ih =>
    rw [List.foldl_cons, ih _ (fun hm => h (List.mem_cons_of_mem j hm))]
    exact scaleObjStep_other rc ic sf s j i
      (fun he => h (he ▸ List.mem_cons_self j t))

/-- Folding the scale mutation over a reference list that holds i exactly
once rewrites store slot i to the remapped object. -/
theorem foldl_scaleObjStep_once (rc ic sf : Vec3) (l : List ℕ)
    (s : List LightObj) (i : ℕ) (o : LightObj) (hcount : l.count i = 1)
    (hget : s[i]? = some o) :
    (l.foldl (scaleObjStep rc ic sf) s)[i]? = some (scaleObj rc ic sf o) := by
  revert hcount hget
  induction l generalizing s with
  | nil => intro hcount _; simp at hcount
  | cons j t ih =>
    intro hcount hget
    rw [List.foldl_cons]
    by_cases hji : j = i
    · subst hji
      have ht : j ∉ t := by
        rw [List.count_cons] at hcount
        simp at hcount
        exact List.count_eq_zero.mp hcount
      have hs : scaleObjStep rc ic sf s j = s.set j (scaleObj rc ic sf o) := by
        unfold scaleObjStep; rw [hget]
      have hlen : j < s.length := (List.getElem?_eq_some_iff.mp hget).1
      rw [hs, foldl_scaleObjStep_not_mem rc ic sf t _ j ht]
      exact List.getElem?_set_self hlen
    · have hc : t.count i = 1 := by
        rw [List.count_cons] at hcount
        simpa [hji] using hcount
      have hget' : (scaleObjStep rc ic sf s j)[i]? = some o := by
        rw [scaleObjStep_other rc ic sf s j i (Ne.symm hji)]; exact hget
      exact ih (scaleObjStep rc ic sf s j) hc hget'

/-- C8 (amended): both alignment operations return a plan object but mutate
the light records shared with the input plan. After the rotation, every
light object the input plan's level groups reference (once) holds the
post-rotation position, the pre-call position surviving only in
`original_position`; after a (nondegenerate) scaling call, that object
holds the remapped position. Both returned plans share the input's level
groups. -/
theorem alignment_mutates_shared_lights (s : List LightObj) (p : PlanRef)
    (mesh : BBox) (header : Header) (i : ℕ) (o : LightObj)
    (hcount : (refsFlat p).count i = 1) (hget : s[i]? = some o)
    (hnz : ¬((rotatedHouseSize header).x = 0 ∨ (rotatedHouseSize header).y = 0
        ∨ (rotatedHouseSize header).z = 0)) :
    (((apply_matterport_rotation_ref s p).1)[i]?
        = some { position := pyRot o.position, original_position := some o.position })
    ∧ (apply_matterport_rotation_ref s p).2.levels = p.levels
    ∧ (∃ s2, scale_light_positions_ref s p mesh header
          = Except.ok (s2, { p with all_positions := refsFlat p })
        ∧ s2[i]? = some (scaleObj (rotatedHouseCenter header) (isaacCenter mesh)
            (scaleFactors mesh header) o)) := by
  refine ⟨foldl_rotObjStep_once (refsFlat p) s i o hcount hget, rfl, ?_⟩
  refine ⟨(refsFlat p).foldl
      (scaleObjStep (rotatedHouseCenter header) (isaacCenter mesh)
        (scaleFactors mesh header)) s, ?_, ?_⟩
  · unfold scale_light_positions_ref
    rw [if_neg hnz]
  · exact foldl_scaleObjStep_once (rotatedHouseCenter header) (isaacCenter mesh)
      (scaleFactors mesh header) (refsFlat p) s i o hcount hget

/-- Witness: the mutation by both operations observed through the input
plan's reference at a concrete store, header and mesh. -/
theorem alignment_mutates_shared_lights_witness :
    (refsFlat planC8).count 0 = 1
    ∧ storeC8[0]? = some { position := ⟨1, 2, 3⟩, original_position := none }
    ∧ ¬((rotatedHouseSize hdrW).x = 0 ∨ (rotatedHouseSize hdrW).y = 0
        ∨ (rotatedHouseSize hdrW).z = 0)
    ∧ ((((apply_matterport_rotation_ref storeC8 planC8).1)[0]?
          = some { position := pyRot ⟨1, 2, 3⟩, original_position := some ⟨1, 2, 3⟩ })
      ∧ (apply_matterport_rotation_ref storeC8 planC8).2.levels = planC8.levels
      ∧ (∃ s2, scale_light_positions_ref storeC8 planC8 meshW hdrW
            = Except.ok (s2, { planC8 with all_positions := refsFlat planC8 })
          ∧ s2[0]? = some (scaleObj (rotatedHouseCenter hdrW) (isaacCenter meshW)
              (scaleFactors meshW hdrW)
              { position := ⟨1, 2, 3⟩, original_position := none }))) :=
  ⟨by decide, by decide, by norm_num [rotatedHouseSize, hdrW],
   alignment_mutates_shared_lights storeC8 planC8 meshW hdrW 0
     { position := ⟨1, 2, 3⟩, original_position := none }
     (by decide) (by decide) (by norm_num [rotatedHouseSize, hdrW])⟩
/-- The rotated-box extent of the spec equals the code's axis-permuted
differences when the header box is well formed (min at most max). -/
theorem rotatedSourceSize_eq (header : Header)
    (hx : header.bbox_min.x ≤ header.bbox_max.x)
    (hy : header.bbox_min.y ≤ header.bbox_max.y)
    (hz : header.bbox_min.z ≤ header.bbox_max.z) :
    rotatedSourceSize header
      = ⟨header.bbox_max.x - header.bbox_min.x,
         header.bbox_max.z - header.bbox_min.z,
         header.bbox_max.y - header.bbox_min.y⟩ := by
  unfold rotatedSourceSize pyRot
  simp only [Vec3.mk.injEq]
  refine ⟨?_, ?_, ?_⟩
  · rw [max_eq_right hx, min_eq_left hx]
  · rw [max_eq_right hz, min_eq_left hz]
  · rw [max_eq_left (neg_le_neg hy), min_eq_right (neg_le_neg hy)]
    ring

/-- The rotated-box midpoint of the spec equals the code's rotated house
center. -/
theorem rotatedSourceCenter_eq (header : Header) :
    rotatedSourceCenter header
      = ⟨(header.bbox_max.x + header.bbox_min.x) / 2,
         (header.bbox_max.z + header.bbox_min.z) / 2,
         -((header.bbox_max.y + header.bbox_min.y) / 2)⟩ := by
  unfold rotatedSourceCenter pyRot
  simp only [Vec3.mk.injEq]
  refine ⟨by ring, by ring, by ring⟩

/-- Per-light: the code's scale-after-rotation body equals the spec's
aligned position with the pre-rotation value in `original_position`. -/
theorem scaleRot_light_eq (header : Header) (mesh : BBox) (li : LightInfo)
    (hx : header.bbox_min.x ≤ header.bbox_max.x)
    (hy : header.bbox_min.y ≤ header.bbox_max.y)
    (hz : header.bbox_min.z ≤ header.bbox_max.z) :
    scaleLight
      ⟨(header.bbox_max.x + header.bbox_min.x) / 2,
       (header.bbox_max.z + header.bbox_min.z) / 2,
       -((header.bbox_max.y + header.bbox_min.y) / 2)⟩
      ⟨(mesh.bbox_max.x + mesh.bbox_min.x) / 2,
       (mesh.bbox_max.y + mesh.bbox_min.y) / 2,
       (mesh.bbox_max.z + mesh.bbox_min.z) / 2⟩
      ⟨(mesh.bbox_max.x - mesh.bbox_min.x) / (header.bbox_max.x - header.bbox_min.x),
       (mesh.bbox_max.y - mesh.bbox_min.y) / (header.bbox_max.z - header.bbox_min.z),
       (mesh.bbox_max.z - mesh.bbox_min.z) / (header.bbox_max.y - header.bbox_min.y)⟩
      (rotateLight li)
      = { li with position := specAlignedPos header mesh li.position,
                  original_position := some li.position } := by
  unfold scaleLight rotateLight specAlignedPos
  rw [rotatedSourceCenter_eq, rotatedSourceSize_eq header hx hy hz]
  unfold destCenter destSize
  simp only [LightInfo.mk.injEq, Vec3.mk.injEq, true_and, and_true]
  refine ⟨by ring, by ring, by ring⟩

theorem alignment_refines_spec (plan : LightPlan) (mesh : BBox) (header : Header)
    (hx : header.bbox_min.x ≤ header.bbox_max.x)
    (hy : header.bbox_min.y ≤ header.bbox_max.y)
    (hz : header.bbox_min.z ≤ header.bbox_max.z)
    (nx : (rotatedSourceSize header).x ≠ 0)
    (ny : (rotatedSourceSize header).y ≠ 0)
    (nz : (rotatedSourceSize header).z ≠ 0) :
    scale_light_positions (apply_matterport_rotation plan) mesh header
      = Except.ok (specAlignedPlan header mesh plan) := by
  have hrs := rotatedSourceSize_eq header hx hy hz
  have ex : (rotatedSourceSize header).x = header.bbox_max.x - header.bbox_min.x := by rw [hrs]
  have ey : (rotatedSourceSize header).y = header.bbox_max.z - header.bbox_min.z := by rw [hrs]
  have ez : (rotatedSourceSize header).z = header.bbox_max.y - header.bbox_min.y := by rw [hrs]
  rw [ex] at nx
  rw [ey] at ny
  rw [ez] at nz
  simp only [scale_light_positions, apply_matterport_rotation, specAlignedPlan]
  rw [if_neg (by push_neg; exact ⟨nx, ny, nz⟩)]
  have hlight : (scaleLight
        { x := (header.bbox_max.x + header.bbox_min.x) / 2,
          y := (header.bbox_max.z + header.bbox_min.z) / 2,
          z := -((header.bbox_max.y + header.bbox_min.y) / 2) }
        { x := (mesh.bbox_max.x + mesh.bbox_min.x) / 2,
          y := (mesh.bbox_max.y + mesh.bbox_min.y) / 2,
          z := (mesh.bbox_max.z + mesh.bbox_min.z) / 2 }
        { x := (mesh.bbox_max.x - mesh.bbox_min.x) / (header.bbox_max.x - header.bbox_min.x),
          y := (mesh.bbox_max.y - mesh.bbox_min.y) / (header.bbox_max.z - header.bbox_min.z),
          z := (mesh.bbox_max.z - mesh.bbox_min.z) / (header.bbox_max.y - header.bbox_min.y) })
        ∘ rotateLight
      = (fun li : LightInfo =>
          { li with position := specAlignedPos header mesh li.position,
                    original_position := some li.position }) :=
    funext fun li => scaleRot_light_eq header mesh li hx hy hz
  have hSG : (fun p : ℤ × LevelGroup =>
        ((p.1,
          { level_name := p.2.level_name,
            lights :=
              List.map
                (scaleLight
                  { x := (header.bbox_max.x + header.bbox_min.x) / 2,
                    y := (header.bbox_max.z + header.bbox_min.z) / 2,
                    z := -((header.bbox_max.y + header.bbox_min.y) / 2) }
                  { x := (mesh.bbox_max.x + mesh.bbox_min.x) / 2,
                    y := (mesh.bbox_max.y + mesh.bbox_min.y) / 2,
                    z := (mesh.bbox_max.z + mesh.bbox_min.z) / 2 }
                  { x := (mesh.bbox_max.x - mesh.bbox_min.x) / (header.bbox_max.x - header.bbox_min.x),
                    y := (mesh.bbox_max.y - mesh.bbox_min.y) / (header.bbox_max.z - header.bbox_min.z),
                    z := (mesh.bbox_max.z - mesh.bbox_min.z) / (header.bbox_max.y - header.bbox_min.y) })
                p.2.lights }) : ℤ × LevelGroup))
      ∘ (fun p : ℤ × LevelGroup =>
          ((p.1, { level_name := p.2.level_name, lights := List.map rotateLight p.2.lights }) : ℤ × LevelGroup))
      = (fun p : ℤ × LevelGroup =>
          ((p.1,
            { level_name := p.2.level_name,
              lights :=
                List.map
                  (fun li =>
                    { li with position := specAlignedPos header mesh li.position,
                              original_position := some li.position })
                  p.2.lights }) : ℤ × LevelGroup)) := by
    funext p
    show ((p.1,
        { level_name := p.2.level_name,
          lights :=
            List.map
              (scaleLight
                { x := (header.bbox_max.x + header.bbox_min.x) / 2,
                  y := (header.bbox_max.z + header.bbox_min.z) / 2,
                  z := -((header.bbox_max.y + header.bbox_min.y) / 2) }
                { x := (mesh.bbox_max.x + mesh.bbox_min.x) / 2,
                  y := (mesh.bbox_max.y + mesh.bbox_min.y) / 2,
                  z := (mesh.bbox_max.z + mesh.bbox_min.z) / 2 }
                { x := (mesh.bbox_max.x - mesh.bbox_min.x) / (header.bbox_max.x - header.bbox_min.x),
                  y := (mesh.bbox_max.y - mesh.bbox_min.y) / (header.bbox_max.z - header.bbox_min.z),
                  z := (mesh.bbox_max.z - mesh.bbox_min.z) / (header.bbox_max.y - header.bbox_min.y) })
              (List.map rotateLight p.2.lights) }) : ℤ × LevelGroup) = _
    rw [List.map_map, hlight]
  simp only [List.map_map]
  rw [hSG]

/-- A one-light source-frame plan for the concrete alignment instance. -/
def planC1 : LightPlan :=
  { total_lights := 1,
    levels := [(0, { level_name := "lvl", lights := [mkLightInfo closetTall] })],
    all_positions := [mkLightInfo closetTall] }

/-- Witness: a well-formed nondegenerate header box, and the full alignment
on a concrete one-light plan equals the spec-side aligned plan. -/
theorem alignment_refines_spec_witness :
    (hdrW.bbox_min.x ≤ hdrW.bbox_max.x ∧ hdrW.bbox_min.y ≤ hdrW.bbox_max.y
      ∧ hdrW.bbox_min.z ≤ hdrW.bbox_max.z)
    ∧ ((rotatedSourceSize hdrW).x ≠ 0 ∧ (rotatedSourceSize hdrW).y ≠ 0
      ∧ (rotatedSourceSize hdrW).z ≠ 0)
    ∧ scale_light_positions (apply_matterport_rotation planC1) meshW hdrW
        = Except.ok (specAlignedPlan hdrW meshW planC1) := by
  refine ⟨⟨by norm_num [hdrW], by norm_num [hdrW], by norm_num [hdrW]⟩,
          ⟨by norm_num [rotatedSourceSize, pyRot, hdrW],
           by norm_num [rotatedSourceSize, pyRot, hdrW],
           by norm_num [rotatedSourceSize, pyRot, hdrW]⟩, ?_⟩
  exact alignment_refines_spec planC1 meshW hdrW
    (by norm_num [hdrW]) (by norm_num [hdrW]) (by norm_num [hdrW])
    (by norm_num [rotatedSourceSize, pyRot, hdrW])
    (by norm_num [rotatedSourceSize, pyRot, hdrW])
    (by norm_num [rotatedSourceSize, pyRot, hdrW])
